import Mathlib

/-!
# Verification of the revfinder-ai tiered product-classification engine

This file gives a shallow embedding of the classification/caching core of
the repository (`src/core/ncm_database.py`, `src/agents/auditor.py`,
`src/main.py`) and proves properties of the tier pipeline
registry → keywords → learned cache → external model.

Modelling conventions:
* Python strings are Lean `String`s; the Python operations `upper`, `strip`,
  `replace(c, "")`, `in` (substring), `startswith` and slicing `[:n]` are
  modelled character-list-wise (`pyUpper`, `pyStrip`, `removeChar`, `pyIn`,
  `pyStartsWith`, `strTake`).  `Char.toUpper` matches Python `upper` on the
  ASCII range, and `Char.isWhitespace` matches the whitespace stripped by
  Python `strip` on the characters that occur here.
* Python dicts (insertion ordered, unique keys) are association lists;
  `dictGet?` is indexing, `dictSet` is item assignment (replace in place or
  append at the end).
* Monetary amounts (Python floats) are modelled as rationals; the engine only
  compares them with `0` and copies them around.
* The mutable `NCMDatabase` object is threaded explicitly: methods that
  mutate it return the new state.  The JSON file behind it is not modelled
  separately from the in-memory `data` (no restart happens inside a claim);
  the only fallible effect, the file write inside `salvar_aprendizado_ia`
  (caught by its `try/except`), is modelled by the `gravacao_ok` flag.
* The external model call (CrewAI round trip plus response parsing in
  `FiscalAuditorAgent.analyze_item`) is an opaque capability that either
  yields a parsed three-field verdict or raises; `Except String IAResposta`
  stands for that outcome, and `agente_analyze_item` is the surrounding
  `try/except` of the method.
-/

/-- Python `s.upper()` (character-wise, faithful on ASCII). -/
def pyUpper (s : String) : String :=
  String.mk (s.data.map Char.toUpper)

/-- Drop leading and trailing whitespace from a character list. -/
def stripChars (l : List Char) : List Char :=
  ((l.dropWhile Char.isWhitespace).reverse.dropWhile Char.isWhitespace).reverse

/-- Python `s.strip()`. -/
def pyStrip (s : String) : String :=
  String.mk (stripChars s.data)

/-- Python `s.replace(c, "")` for a one-character pattern: remove every
occurrence of `c`. -/
def removeChar (c : Char) (s : String) : String :=
  String.mk (s.data.filter (fun a => a ≠ c))

/-- Python `needle in hay` for strings: substring containment. -/
def pyIn (needle hay : String) : Bool :=
  decide (needle.data <:+: hay.data)

/-- Python `s.startswith(p)`. -/
def pyStartsWith (p s : String) : Bool :=
  decide (p.data <+: s.data)

/-- Python slicing `s[:n]`. -/
def strTake (n : Nat) (s : String) : String :=
  String.mk (s.data.take n)

/-- The code normalization done throughout `ncm_database.py`:
`ncm.replace(".", "").replace(" ", "").strip()`. -/
def normCode (ncm : String) : String :=
  pyStrip (removeChar ' ' (removeChar '.' ncm))

/-- Python dict indexing `d.get(k)` on an insertion-ordered association
list: the value of the (unique) matching key. -/
def dictGet? {α : Type} (k : String) : List (String × α) → Option α
  | [] => none
  | (k', v) :: resto => if k' = k then some v else dictGet? k resto

/-- Python dict item assignment `d[k] = v`: replace the value in place if
the key is present, otherwise append the new entry at the end. -/
def dictSet {α : Type} (k : String) (v : α) : List (String × α) → List (String × α)
  | [] => [(k, v)]
  | (k', v') :: resto => if k' = k then (k, v) :: resto else (k', v') :: dictSet k v resto

/-- One entry of the learned cache (`_aprendizado_ia.produtos` in the JSON):
the verdict saved after an external-model query. -/
structure CacheEntry where
  is_monofasico : Bool
  ncm_sugerido : String
  motivo : String
  data_aprendizado : String
deriving Repr, DecidableEq

/-- The `_aprendizado_ia` section of `data`: the saved-call counter plus the
persisted products map. -/
structure AprendizadoIA where
  total_economizado : Nat
  produtos : List (String × CacheEntry)
deriving Repr, DecidableEq

/-- Per-code detail record built by `_process_database`; only the fields the
modelled operations consult (`get_descricao` reads `descricao` and
`ncm_base`) are carried. -/
structure NCMDetalhe where
  ncm_base : String
  descricao : String
deriving Repr, DecidableEq

/-- State of an `NCMDatabase` object: the registry list `ncm_lista`, the
keyword table, the detail map, the `base_legal` metadata entry (absent when
the metadata lacks the key), the `_aprendizado_ia` section of `data` (absent
when the JSON has none), and the in-memory cache mirror `cache_ia`. -/
structure NCMDatabase where
  ncm_lista : List String
  keywords : List (String × List String)
  ncm_detalhes : List (String × NCMDetalhe)
  base_legal_meta : Option String
  aprendizado : Option AprendizadoIA
  cache_ia : List (String × CacheEntry)
deriving Repr, DecidableEq

/-- `NCMDatabase.get_base_legal`. -/
def get_base_legal (db : NCMDatabase) : String :=
  db.base_legal_meta.getD "Lei nº 13.097/2015"

/-- `NCMDatabase.get_descricao`. -/
def get_descricao (db : NCMDatabase) (ncm : String) : String :=
  let ncm_limpo := normCode ncm
  match dictGet? ncm_limpo db.ncm_detalhes with
  | some info => info.descricao
  | none =>
    match db.ncm_detalhes.find? (fun par => decide (par.2.ncm_base = ncm_limpo)) with
    | some par => par.2.descricao
    | none => ""

/-- `NCMDatabase.is_monofasico`: exact membership in the registry list, then
the 4-character-prefix fallback. -/
def is_monofasico (db : NCMDatabase) (ncm : String) : Bool :=
  let ncm_limpo := normCode ncm
  if ncm_limpo ∈ db.ncm_lista then true
  else
    let prefixo := strTake 4 ncm_limpo
    db.ncm_lista.any (fun ncm_cadastrado => pyStartsWith prefixo ncm_cadastrado)

/-- The `categoria_ncm` map hard-coded in `identificar_por_nome`. -/
def categoria_ncm : List (String × String) :=
  [("cerveja", "22030000"),
   ("refrigerante", "22021000"),
   ("agua", "22011000"),
   ("energetico", "22029900"),
   ("isotonico", "22029900"),
   ("cha_pronto", "22029900"),
   ("suco_pronto", "22029900"),
   ("cerveja_sem_alcool", "22029100")]

/-- The fragments `identificar_por_nome` matches only as whole words. -/
def keywords_palavra_completa : List String :=
  ["CHA", "CHÁ", "ALE", "ZERO"]

/-- The per-fragment containment test of `identificar_por_nome`: whole-word
fragments are padded with boundary spaces on both sides before the check,
ordinary fragments use plain substring containment. -/
def keyword_hit (nome_upper keyword_upper : String) : Bool :=
  if keyword_upper ∈ keywords_palavra_completa then
    pyIn (" " ++ keyword_upper ++ " ") (" " ++ nome_upper ++ " ")
  else
    pyIn keyword_upper nome_upper

/-- `NCMDatabase._calcular_confianca` (the leading underscore is dropped for
Lean): brand fragments are `alta`, generic category fragments `media`,
anything else `baixa`. -/
def calcular_confianca (keyword : String) (nome_produto : String) : String :=
  let keywords_alta : List String :=
    ["HEINEKEN", "BRAHMA", "SKOL", "ANTARCTICA", "BUDWEISER",
     "COCA-COLA", "COCA", "PEPSI", "FANTA", "SPRITE",
     "RED BULL", "MONSTER", "GATORADE", "POWERADE"]
  let keywords_media : List String :=
    ["CERVEJA", "REFRIGERANTE", "AGUA", "ÁGUA", "SUCO",
     "ENERGETICO", "ISOTONICO", "CHÁ"]
  let keyword_upper := pyUpper keyword
  if keyword_upper ∈ keywords_alta then "alta"
  else if keyword_upper ∈ keywords_media then "media"
  else "baixa"

/-- The `MatchResult` dict returned by `identificar_por_nome`. -/
structure Identificacao where
  categoria : String
  ncm_sugerido : String
  descricao : String
  confianca : String
  keyword_encontrada : String
  base_legal : String
deriving Repr, DecidableEq

/-- Inner loop of `identificar_por_nome` over one category's fragment list:
first matching fragment whose category has a mapped code wins. -/
def identificar_keywords (db : NCMDatabase) (categoria : String)
    (nome_upper nome_produto : String) : List String → Option Identificacao
  | [] => none
  | keyword :: resto =>
    let keyword_upper := pyUpper keyword
    if keyword_hit nome_upper keyword_upper then
      let ncm_sugerido := (dictGet? categoria categoria_ncm).getD ""
      if ncm_sugerido ≠ "" then
        some
          { categoria := categoria, ncm_sugerido := ncm_sugerido,
            descricao := get_descricao db ncm_sugerido,
            confianca := calcular_confianca keyword nome_produto,
            keyword_encontrada := keyword,
            base_legal := get_base_legal db }
      else identificar_keywords db categoria nome_upper nome_produto resto
    else identificar_keywords db categoria nome_upper nome_produto resto

/-- Outer loop of `identificar_por_nome` over the category table, skipping
comment keys that start with an underscore. -/
def identificar_categorias (db : NCMDatabase) (nome_upper nome_produto : String) :
    List (String × List String) → Option Identificacao
  | [] => none
  | (categoria, keywords_lista) :: resto =>
    if pyStartsWith "_" categoria then
      identificar_categorias db nome_upper nome_produto resto
    else
      match identificar_keywords db categoria nome_upper nome_produto keywords_lista with
      | some resultado => some resultado
      | none => identificar_categorias db nome_upper nome_produto resto

/-- `NCMDatabase.identificar_por_nome`. -/
def identificar_por_nome (db : NCMDatabase) (nome_produto : String) : Option Identificacao :=
  identificar_categorias db (pyUpper nome_produto) nome_produto db.keywords

/-- The dict returned by `buscar_cache_ia`: a copy of the cache entry plus
the `fonte = "cache_ia"` marker. -/
structure CacheResultado where
  is_monofasico : Bool
  ncm_sugerido : String
  motivo : String
  data_aprendizado : String
  fonte : String
deriving Repr, DecidableEq

/-- `resultado = dados.copy(); resultado["fonte"] = "cache_ia"`. -/
def resultado_do_cache (dados : CacheEntry) : CacheResultado :=
  { is_monofasico := dados.is_monofasico
    ncm_sugerido := dados.ncm_sugerido
    motivo := dados.motivo
    data_aprendizado := dados.data_aprendizado
    fonte := "cache_ia" }

/-- Flexible-match loop of `buscar_cache_ia`: first cache entry whose
(uppercased) key is contained in the normalized name or contains it. -/
def buscar_flexivel (nome_upper : String) : List (String × CacheEntry) → Option CacheResultado
  | [] => none
  | (chave_cache, dados) :: resto =>
    let chave_upper := pyUpper chave_cache
    if pyIn chave_upper nome_upper || pyIn nome_upper chave_upper then
      some (resultado_do_cache dados)
    else buscar_flexivel nome_upper resto

/-- `NCMDatabase.buscar_cache_ia`: empty-cache early exit, exact key match
first, then the flexible scan. -/
def buscar_cache_ia (db : NCMDatabase) (nome_produto : String) : Option CacheResultado :=
  if db.cache_ia = [] then none
  else
    let nome_upper := pyStrip (pyUpper nome_produto)
    match dictGet? nome_upper db.cache_ia with
    | some dados => some (resultado_do_cache dados)
    | none => buscar_flexivel nome_upper db.cache_ia

/-- `NCMDatabase.salvar_aprendizado_ia`.  `agora` is `datetime.now()`;
`gravacao_ok` tells whether the JSON file write succeeds — on failure the
`except` branch returns `False`, with the in-memory update (done before the
write) already in place. -/
def salvar_aprendizado_ia (db : NCMDatabase) (nome_produto : String)
    (mono : Bool) (ncm_sugerido : String) (motivo : String)
    (agora : String) (gravacao_ok : Bool) : Bool × NCMDatabase :=
  let nome_normalizado := pyStrip (pyUpper nome_produto)
  let dados_aprendizado : CacheEntry :=
    { is_monofasico := mono
      ncm_sugerido := ncm_sugerido
      motivo := motivo
      data_aprendizado := agora }
  let secao := (db.aprendizado).getD { total_economizado := 0, produtos := [] }
  let db' : NCMDatabase :=
    { db with
      cache_ia := dictSet nome_normalizado dados_aprendizado db.cache_ia
      aprendizado := some
        { secao with produtos := dictSet nome_normalizado dados_aprendizado secao.produtos } }
  (gravacao_ok, db')

/-- `NCMDatabase.incrementar_economia`: bump the saved-call counter when the
`_aprendizado_ia` section exists; a failing file write is swallowed
(`except: pass`) after the in-memory bump. -/
def incrementar_economia (db : NCMDatabase) : NCMDatabase :=
  match db.aprendizado with
  | none => db
  | some secao =>
    { db with aprendizado := some { secao with total_economizado := secao.total_economizado + 1 } }

/-- The verification dict built by `verificar_item`.  `keyword_encontrada`
is only added to the dict in the keyword branch, hence an `Option`. -/
structure Verificacao where
  is_monofasico : Bool
  ncm_correto : String
  ncm_atual_correto : Bool
  fonte : String
  descricao : String
  base_legal : String
  confianca : String
  keyword_encontrada : Option String
deriving Repr, DecidableEq

/-- `NCMDatabase.verificar_item`: registry check, then keyword check, then
learned-cache check (which bumps the saved-call counter), else the
not-monophasic default for `main.py` to escalate to the model. -/
def verificar_item (db : NCMDatabase) (ncm : String) (nome_produto : String) :
    Verificacao × NCMDatabase :=
  let ncm_limpo := normCode ncm
  let resultado : Verificacao :=
    { is_monofasico := false
      ncm_correto := ncm_limpo
      ncm_atual_correto := true
      fonte := ""
      descricao := ""
      base_legal := get_base_legal db
      confianca := "alta"
      keyword_encontrada := none }
  if is_monofasico db ncm_limpo then
    ({ resultado with
        is_monofasico := true
        ncm_correto := ncm_limpo
        fonte := "banco_dados"
        descricao := get_descricao db ncm_limpo }, db)
  else
    match identificar_por_nome db nome_produto with
    | some identificacao =>
      ({ resultado with
          is_monofasico := true
          ncm_correto := identificacao.ncm_sugerido
          ncm_atual_correto := false
          fonte := "identificacao_nome"
          descricao := identificacao.descricao
          confianca := identificacao.confianca
          keyword_encontrada := some identificacao.keyword_encontrada }, db)
    | none =>
      match buscar_cache_ia db nome_produto with
      | some cache =>
        ({ resultado with
            is_monofasico := cache.is_monofasico
            ncm_correto := cache.ncm_sugerido
            ncm_atual_correto := decide (ncm_limpo = cache.ncm_sugerido)
            fonte := "cache_ia"
            descricao := cache.motivo
            confianca := "alta" }, incrementar_economia db)
      | none => (resultado, db)

/-- The three-field verdict list `[is_monofasico, ncm_correto, motivo]`
returned by `FiscalAuditorAgent.analyze_item`. -/
structure IAResposta where
  is_monofasico : Bool
  ncm_correto : String
  motivo : String
deriving Repr, DecidableEq

/-- `FiscalAuditorAgent.analyze_item`: the crew execution plus response
parsing (`resultado_bruto`) either yields a verdict or raises; the
surrounding `try/except` converts a raised error `e` into the safe verdict
`[False, ncm_errado, f"Erro na API: {str(e)[:30]}"]`. -/
def agente_analyze_item (resultado_bruto : Except String IAResposta)
    (ncm_errado : String) : IAResposta :=
  match resultado_bruto with
  | Except.ok resposta => resposta
  | Except.error e =>
    { is_monofasico := false
      ncm_correto := ncm_errado
      motivo := "Erro na API: " ++ strTake 30 e }

/-- The opaque external-model capability handed to `analyze_item` in
`main.py` (`ia_auditor`): per call it either produces a parsed verdict or
raises. -/
def IAConsulta : Type := String → String → Rat → Except String IAResposta

/-- One normalized invoice line item as produced by the parser. -/
structure Item where
  produto : String
  ncm : String
  imposto_total : Rat
  valor_total : Rat
  chave_acesso : String
  numero_nota : String
  data_emissao : String
  cnpj_emitente : String
  nome_emitente : String
deriving Repr, DecidableEq

/-- The finding dict appended to `erros_encontrados` by `analyze_item`. -/
structure Erro where
  chave_acesso : String
  numero_nota : String
  data_emissao : String
  cnpj_emitente : String
  nome_emitente : String
  produto : String
  ncm : String
  ncm_correto : String
  imposto_recuperavel : Rat
  motivo : String
  origem_analise : String
  base_legal : String
  confianca : String
deriving Repr, DecidableEq

/-- The `stats` tally dict of `process_pipeline` (all four keys are
initialized to `0` there, so they are total fields). -/
structure Stats where
  banco_dados : Nat
  keywords : Nat
  ia : Nat
  ia_economizada : Nat
deriving Repr, DecidableEq

/-- Result of one `analyze_item` call in `main.py`: the optional finding,
the database state after it (cache-learning side effects included), the
updated tally, and how many external-model calls were made (0 or 1). -/
structure AnaliseSaida where
  erro : Option Erro
  db : NCMDatabase
  stats : Stats
  chamadas_ia : Nat
deriving Repr, DecidableEq

/-- `main.analyze_item`: zero-tax early exit, the three local tiers via
`verificar_item`, the cache-hit short circuit that skips the model even for
a not-monophasic cached verdict, and the model fallback whose verdict is
always saved back into the learned cache. -/
def analyze_item (item : Item) (ncm_db : NCMDatabase) (ia_auditor : Option IAConsulta)
    (gravacao_ok : Bool) (agora : String) (stats : Stats) : AnaliseSaida :=
  if item.imposto_total ≤ 0 then
    { erro := none, db := ncm_db, stats := stats, chamadas_ia := 0 }
  else
    let vr := verificar_item ncm_db item.ncm item.produto
    let resultado_db := vr.1
    let db1 := vr.2
    if resultado_db.is_monofasico then
      let origem_motivo_stats :=
        if resultado_db.fonte = "banco_dados" then
          ("Banco de Dados",
           "NCM " ++ item.ncm ++ " é monofásico - " ++ resultado_db.descricao,
           { stats with banco_dados := stats.banco_dados + 1 })
        else if resultado_db.fonte = "cache_ia" then
          ("Cache IA (Aprendizado)",
           "Produto identificado por aprendizado anterior - " ++ resultado_db.descricao,
           { stats with ia_economizada := stats.ia_economizada + 1 })
        else
          ("Identificação por Nome",
           "Produto identificado por keyword '" ++ (resultado_db.keyword_encontrada.getD "")
             ++ "' - " ++ resultado_db.descricao,
           { stats with
              keywords := stats.keywords + 1
              ia_economizada := stats.ia_economizada + 1 })
      { erro := some
          { chave_acesso := item.chave_acesso
            numero_nota := item.numero_nota
            data_emissao := item.data_emissao
            cnpj_emitente := item.cnpj_emitente
            nome_emitente := item.nome_emitente
            produto := item.produto
            ncm := item.ncm
            ncm_correto := resultado_db.ncm_correto
            imposto_recuperavel := item.imposto_total
            motivo := origem_motivo_stats.2.1
            origem_analise := origem_motivo_stats.1
            base_legal := resultado_db.base_legal
            confianca := resultado_db.confianca }
        db := db1
        stats := origem_motivo_stats.2.2
        chamadas_ia := 0 }
    else if resultado_db.fonte = "cache_ia" then
      { erro := none
        db := db1
        stats := { stats with ia_economizada := stats.ia_economizada + 1 }
        chamadas_ia := 0 }
    else
      match ia_auditor with
      | none => { erro := none, db := db1, stats := stats, chamadas_ia := 0 }
      | some consulta =>
        let resultado_ia :=
          agente_analyze_item (consulta item.produto item.ncm item.valor_total) item.ncm
        let db2 :=
          (salvar_aprendizado_ia db1 item.produto resultado_ia.is_monofasico
            resultado_ia.ncm_correto resultado_ia.motivo agora gravacao_ok).2
        if resultado_ia.is_monofasico then
          { erro := some
              { chave_acesso := item.chave_acesso
                numero_nota := item.numero_nota
                data_emissao := item.data_emissao
                cnpj_emitente := item.cnpj_emitente
                nome_emitente := item.nome_emitente
                produto := item.produto
                ncm := item.ncm
                ncm_correto := resultado_ia.ncm_correto
                imposto_recuperavel := item.imposto_total
                motivo := resultado_ia.motivo
                origem_analise := "Agente IA"
                base_legal := get_base_legal db2
                confianca := "media" }
            db := db2
            stats := { stats with ia := stats.ia + 1 }
            chamadas_ia := 1 }
        else
          { erro := none, db := db2, stats := stats, chamadas_ia := 1 }

/-- Accumulated outcome of the item loop of `process_pipeline`. -/
structure ProcessoSaida where
  erros_encontrados : List Erro
  db : NCMDatabase
  stats : Stats
  chamadas_ia : Nat
deriving Repr, DecidableEq

/-- The inner loop of `process_pipeline` over the items of the parsed
notes: analyze each item in turn, collecting the findings. -/
def process_itens (ia_auditor : Option IAConsulta) (gravacao_ok : Bool) (agora : String) :
    List Item → NCMDatabase → Stats → ProcessoSaida
  | [], db, stats =>
    { erros_encontrados := [], db := db, stats := stats, chamadas_ia := 0 }
  | item :: resto, db, stats =>
    let saida := analyze_item item db ia_auditor gravacao_ok agora stats
    let depois := process_itens ia_auditor gravacao_ok agora resto saida.db saida.stats
    { erros_encontrados :=
        match saida.erro with
        | some erro => erro :: depois.erros_encontrados
        | none => depois.erros_encontrados
      db := depois.db
      stats := depois.stats
      chamadas_ia := saida.chamadas_ia + depois.chamadas_ia }

/-- Modelled from the spec (§4.3 `lookup`), as the refinement target for the
cache-lookup-order claim: normalize the description (upper-case, trim) and
attempt, in order, (1) an exact key match, (2) a scan of all cache keys
accepting the first one where either the normalized description contains the
key or the key contains the normalized description; otherwise none. -/
def lookupSpec (cache : List (String × CacheEntry)) (nome : String) : Option CacheResultado :=
  let nome_norm := pyStrip (pyUpper nome)
  match dictGet? nome_norm cache with
  | some dados => some (resultado_do_cache dados)
  | none =>
    match cache.find? (fun par => pyIn par.1 nome_norm || pyIn nome_norm par.1) with
    | some par => some (resultado_do_cache par.2)
    | none => none

theorem dictGet_set_same {α : Type} (k : String) (v : α) (l : List (String × α)) :
    dictGet? k (dictSet k v l) = some v := by
  induction l with
  | nil => simp [dictGet?, dictSet]
  | cons par resto ih =>
    obtain ⟨k', v'⟩ := par
    by_cases h : k' = k
    · simp [dictGet?, dictSet, h]
    · simp [dictGet?, dictSet, h, ih]

theorem dictSet_ne_nil {α : Type} (k : String) (v : α) (l : List (String × α)) :
    dictSet k v l ≠ [] := by
  cases l with
  | nil => simp [dictSet]
  | cons par resto =>
    obtain ⟨k', v'⟩ := par
    by_cases h : k' = k <;> simp [dictSet, h]

theorem dictSet_absorve {α : Type} (k : String) (v₁ v₂ : α) (l : List (String × α)) :
    dictSet k v₂ (dictSet k v₁ l) = dictSet k v₂ l := by
  induction l with
  | nil => simp [dictSet]
  | cons par resto ih =>
    obtain ⟨k', v'⟩ := par
    by_cases h : k' = k
    · simp [dictSet, h]
    · simp [dictSet, h, ih]

theorem dropWhile_dropWhile (p : Char → Bool) (l : List Char) :
    (l.dropWhile p).dropWhile p = l.dropWhile p := by
  cases h : l.dropWhile p with
  | nil => simp
  | cons a t =>
    have hne : l.dropWhile p ≠ [] := by simp [h]
    have ha : p a = false := by
      have hh := List.head_dropWhile_not p l hne
      simpa [h] using hh
    simp [List.dropWhile_cons, ha]

theorem dropWhile_eq_self_of_prefix (p : Char → Bool) (l l' : List Char)
    (h : l.dropWhile p = l) (hp : l' <+: l) : l'.dropWhile p = l' := by
  cases l' with
  | nil => simp
  | cons a t =>
    obtain ⟨u, hu⟩ := hp
    cases l with
    | nil => simp at hu
    | cons b s =>
      simp only [List.cons_append, List.cons.injEq] at hu
      obtain ⟨rfl, -⟩ := hu
      by_cases hb : p a
      · exfalso
        rw [List.dropWhile_cons, if_pos hb] at h
        have hlen := (List.dropWhile_suffix (l := s) p).length_le
        have := congrArg List.length h
        simp at this
        omega
      · simp [List.dropWhile_cons, hb]

theorem stripChars_prefixo (l : List Char) :
    stripChars l <+: l.dropWhile Char.isWhitespace := by
  unfold stripChars
  rw [← List.reverse_suffix]
  simp [List.dropWhile_suffix]

theorem stripChars_subset (l : List Char) (a : Char) (h : a ∈ stripChars l) : a ∈ l := by
  have h1 := (stripChars_prefixo l).sublist.subset h
  exact (List.dropWhile_sublist Char.isWhitespace (l := l)).subset h1

theorem stripChars_idem (l : List Char) : stripChars (stripChars l) = stripChars l := by
  have h1 : (stripChars l).dropWhile Char.isWhitespace = stripChars l := by
    refine dropWhile_eq_self_of_prefix _ _ _ ?_ (stripChars_prefixo l)
    exact dropWhile_dropWhile _ _
  have h2 : (stripChars l).reverse.dropWhile Char.isWhitespace = (stripChars l).reverse := by
    unfold stripChars
    simp [dropWhile_dropWhile]
  calc stripChars (stripChars l)
      = (((stripChars l).dropWhile Char.isWhitespace).reverse.dropWhile
          Char.isWhitespace).reverse := rfl
    _ = ((stripChars l).reverse.dropWhile Char.isWhitespace).reverse := by rw [h1]
    _ = (stripChars l).reverse.reverse := by rw [h2]
    _ = stripChars l := List.reverse_reverse _

theorem removeChar_not_mem (c : Char) (s : String) : c ∉ (removeChar c s).data := by
  intro h
  unfold removeChar at h
  simp only [String.data] at h
  have := List.of_mem_filter h
  simp at this

theorem removeChar_eq_self (c : Char) (s : String) (h : c ∉ s.data) :
    removeChar c s = s := by
  unfold removeChar
  rw [List.filter_eq_self.mpr]
  · intro a ha
    simp only [decide_eq_true_eq]
    intro rfl_eq
    exact h (rfl_eq ▸ ha)

theorem removeChar_mem_of_mem (c a : Char) (s : String) (h : a ∈ (removeChar c s).data) :
    a ∈ s.data := by
  unfold removeChar at h
  exact List.mem_of_mem_filter h

theorem pyStrip_not_mem (c : Char) (s : String) (h : c ∉ s.data) : c ∉ (pyStrip s).data := by
  intro hc
  exact h (stripChars_subset _ _ hc)

theorem pyStrip_idem (s : String) : pyStrip (pyStrip s) = pyStrip s := by
  unfold pyStrip
  rw [show (String.mk (stripChars s.data)).data = stripChars s.data from rfl,
    stripChars_idem]

theorem normCode_idem (s : String) : normCode (normCode s) = normCode s := by
  have hdot : ('.' : Char) ∉ (normCode s).data := by
    apply pyStrip_not_mem
    intro h
    exact removeChar_not_mem '.' s (removeChar_mem_of_mem ' ' '.' _ h)
  have hsp : (' ' : Char) ∉ (normCode s).data := by
    apply pyStrip_not_mem
    exact removeChar_not_mem ' ' _
  calc normCode (normCode s)
      = pyStrip (removeChar ' ' (removeChar '.' (normCode s))) := rfl
    _ = pyStrip (removeChar ' ' (normCode s)) := by rw [removeChar_eq_self '.' _ hdot]
    _ = pyStrip (normCode s) := by rw [removeChar_eq_self ' ' _ hsp]
    _ = normCode s := pyStrip_idem _

theorem salvar_preserva_lista (db : NCMDatabase) (nome : String) (mono : Bool)
    (ncm mot agora : String) (ok : Bool) :
    ((salvar_aprendizado_ia db nome mono ncm mot agora ok).2).ncm_lista = db.ncm_lista := rfl

theorem salvar_preserva_keywords (db : NCMDatabase) (nome : String) (mono : Bool)
    (ncm mot agora : String) (ok : Bool) :
    ((salvar_aprendizado_ia db nome mono ncm mot agora ok).2).keywords = db.keywords := rfl

theorem salvar_preserva_detalhes (db : NCMDatabase) (nome : String) (mono : Bool)
    (ncm mot agora : String) (ok : Bool) :
    ((salvar_aprendizado_ia db nome mono ncm mot agora ok).2).ncm_detalhes =
      db.ncm_detalhes := rfl

theorem salvar_preserva_base_legal (db : NCMDatabase) (nome : String) (mono : Bool)
    (ncm mot agora : String) (ok : Bool) :
    ((salvar_aprendizado_ia db nome mono ncm mot agora ok).2).base_legal_meta =
      db.base_legal_meta := rfl

theorem salvar_cache (db : NCMDatabase) (nome : String) (mono : Bool)
    (ncm mot agora : String) (ok : Bool) :
    ((salvar_aprendizado_ia db nome mono ncm mot agora ok).2).cache_ia =
      dictSet (pyStrip (pyUpper nome))
        { is_monofasico := mono, ncm_sugerido := ncm, motivo := mot,
          data_aprendizado := agora } db.cache_ia := rfl

theorem salvar_fst (db : NCMDatabase) (nome : String) (mono : Bool)
    (ncm mot agora : String) (ok : Bool) :
    (salvar_aprendizado_ia db nome mono ncm mot agora ok).1 = ok := rfl

theorem is_monofasico_congr (db db' : NCMDatabase) (h : db.ncm_lista = db'.ncm_lista)
    (ncm : String) : is_monofasico db ncm = is_monofasico db' ncm := by
  unfold is_monofasico
  rw [h]

theorem get_descricao_congr (db db' : NCMDatabase) (h : db.ncm_detalhes = db'.ncm_detalhes)
    (ncm : String) : get_descricao db ncm = get_descricao db' ncm := by
  unfold get_descricao
  rw [h]

theorem get_base_legal_congr (db db' : NCMDatabase)
    (h : db.base_legal_meta = db'.base_legal_meta) :
    get_base_legal db = get_base_legal db' := by
  unfold get_base_legal
  rw [h]

theorem identificar_keywords_congr (db db' : NCMDatabase)
    (hdet : db.ncm_detalhes = db'.ncm_detalhes)
    (hleg : db.base_legal_meta = db'.base_legal_meta)
    (categoria nome_upper nome_produto : String) (l : List String) :
    identificar_keywords db categoria nome_upper nome_produto l =
      identificar_keywords db' categoria nome_upper nome_produto l := by
  induction l with
  | nil => rfl
  | cons keyword resto ih =>
    unfold identificar_keywords
    simp only [get_descricao_congr db db' hdet, get_base_legal_congr db db' hleg, ih]

theorem identificar_congr (db db' : NCMDatabase)
    (hkw : db.keywords = db'.keywords)
    (hdet : db.ncm_detalhes = db'.ncm_detalhes)
    (hleg : db.base_legal_meta = db'.base_legal_meta)
    (nome_produto : String) :
    identificar_por_nome db nome_produto = identificar_por_nome db' nome_produto := by
  unfold identificar_por_nome
  rw [hkw]
  generalize db'.keywords = l
  induction l with
  | nil => rfl
  | cons par resto ih =>
    obtain ⟨categoria, kws⟩ := par
    unfold identificar_categorias
    rw [identificar_keywords_congr db db' hdet hleg, ih]

theorem verificar_banco_eq (db : NCMDatabase) (ncm nome : String)
    (h1 : is_monofasico db (normCode ncm) = true) :
    verificar_item db ncm nome =
      ({ is_monofasico := true
         ncm_correto := normCode ncm
         ncm_atual_correto := true
         fonte := "banco_dados"
         descricao := get_descricao db (normCode ncm)
         base_legal := get_base_legal db
         confianca := "alta"
         keyword_encontrada := none }, db) := by
  unfold verificar_item
  simp [h1]

theorem verificar_keyword_eq (db : NCMDatabase) (ncm nome : String)
    (ident : Identificacao)
    (h1 : is_monofasico db (normCode ncm) = false)
    (h2 : identificar_por_nome db nome = some ident) :
    verificar_item db ncm nome =
      ({ is_monofasico := true
         ncm_correto := ident.ncm_sugerido
         ncm_atual_correto := false
         fonte := "identificacao_nome"
         descricao := ident.descricao
         base_legal := get_base_legal db
         confianca := ident.confianca
         keyword_encontrada := some ident.keyword_encontrada }, db) := by
  unfold verificar_item
  simp [h1, h2]

theorem verificar_cache_eq (db : NCMDatabase) (ncm nome : String)
    (c : CacheResultado)
    (h1 : is_monofasico db (normCode ncm) = false)
    (h2 : identificar_por_nome db nome = none)
    (h3 : buscar_cache_ia db nome = some c) :
    verificar_item db ncm nome =
      ({ is_monofasico := c.is_monofasico
         ncm_correto := c.ncm_sugerido
         ncm_atual_correto := decide (normCode ncm = c.ncm_sugerido)
         fonte := "cache_ia"
         descricao := c.motivo
         base_legal := get_base_legal db
         confianca := "alta"
         keyword_encontrada := none }, incrementar_economia db) := by
  unfold verificar_item
  simp [h1, h2, h3]

theorem verificar_perde_eq (db : NCMDatabase) (ncm nome : String)
    (h1 : is_monofasico db (normCode ncm) = false)
    (h2 : identificar_por_nome db nome = none)
    (h3 : buscar_cache_ia db nome = none) :
    verificar_item db ncm nome =
      ({ is_monofasico := false
         ncm_correto := normCode ncm
         ncm_atual_correto := true
         fonte := ""
         descricao := ""
         base_legal := get_base_legal db
         confianca := "alta"
         keyword_encontrada := none }, db) := by
  unfold verificar_item
  simp [h1, h2, h3]

theorem verificar_inversao (db : NCMDatabase) (ncm nome : String)
    (hmono : (verificar_item db ncm nome).1.is_monofasico = false)
    (hfonte : (verificar_item db ncm nome).1.fonte ≠ "cache_ia") :
    is_monofasico db (normCode ncm) = false ∧
    identificar_por_nome db nome = none ∧
    buscar_cache_ia db nome = none := by
  by_cases h1 : is_monofasico db (normCode ncm)
  · rw [verificar_banco_eq db ncm nome h1] at hmono
    simp at hmono
  · rw [Bool.not_eq_true] at h1
    cases h2 : identificar_por_nome db nome with
    | some ident =>
      rw [verificar_keyword_eq db ncm nome ident h1 h2] at hmono
      simp at hmono
    | none =>
      cases h3 : buscar_cache_ia db nome with
      | some c =>
        rw [verificar_cache_eq db ncm nome c h1 h2 h3] at hfonte
        simp at hfonte
      | none => exact ⟨h1, rfl, rfl⟩

theorem buscar_apos_salvar (db : NCMDatabase) (nome : String) (mono : Bool)
    (ncm mot agora : String) (ok : Bool) :
    buscar_cache_ia ((salvar_aprendizado_ia db nome mono ncm mot agora ok).2) nome =
      some { is_monofasico := mono, ncm_sugerido := ncm, motivo := mot,
             data_aprendizado := agora, fonte := "cache_ia" } := by
  unfold buscar_cache_ia
  rw [salvar_cache]
  rw [if_neg (dictSet_ne_nil _ _ _)]
  simp [dictGet_set_same, resultado_do_cache]

/-- C10: when a code normalizes (dots and spaces stripped) to fewer than 4
characters, the prefix fallback of `is_monofasico` uses the entire short
string as the prefix, so the check is equivalent to "some registered code
starts with the short normalized code"; in particular a code normalizing to
the empty string is reported special-tax exactly when the registry list is
non-empty, because every registered code starts with the empty prefix. -/
theorem c10_prefixo_curto (db : NCMDatabase) (ncm : String) :
    ((normCode ncm).data.length < 4 →
      is_monofasico db ncm =
        db.ncm_lista.any (fun c => pyStartsWith (normCode ncm) c)) ∧
    (normCode ncm = "" →
      (is_monofasico db ncm = true ↔ db.ncm_lista ≠ [])) := by
  have hcurto : ∀ hlen : (normCode ncm).data.length < 4,
      is_monofasico db ncm = db.ncm_lista.any (fun c => pyStartsWith (normCode ncm) c) := by
    intro hlen
    have htake : strTake 4 (normCode ncm) = normCode ncm := by
      unfold strTake
      rw [List.take_of_length_le (le_of_lt hlen)]
    simp only [is_monofasico]
    rw [htake]
    by_cases hmem : normCode ncm ∈ db.ncm_lista
    · rw [if_pos hmem]
      symm
      rw [List.any_eq_true]
      refine ⟨normCode ncm, hmem, ?_⟩
      unfold pyStartsWith
      simp
    · rw [if_neg hmem]
  refine ⟨hcurto, ?_⟩
  intro hvazio
  have hlen : (normCode ncm).data.length < 4 := by rw [hvazio]; decide
  rw [hcurto hlen]
  constructor
  · intro htrue hnil
    rw [hnil] at htrue
    simp at htrue
  · intro hne
    cases hl : db.ncm_lista with
    | nil => exact absurd hl hne
    | cons c resto =>
      rw [List.any_eq_true]
      refine ⟨c, List.mem_cons_self c resto, ?_⟩
      rw [hvazio]
      unfold pyStartsWith
      simp

/-- C10 witness: the concrete code `". ."` normalizes to the empty string,
and on a one-entry registry the claimed equivalence makes it special-tax. -/
theorem c10_prefixo_curto_witness :
    normCode ". ." = "" ∧
    (is_monofasico
        { ncm_lista := ["22030000"], keywords := [], ncm_detalhes := []
          base_legal_meta := none, aprendizado := none, cache_ia := [] } ". ." = true ↔
      ({ ncm_lista := ["22030000"], keywords := [], ncm_detalhes := []
         base_legal_meta := none, aprendizado := none, cache_ia := [] } :
          NCMDatabase).ncm_lista ≠ []) :=
  ⟨by decide,
   (c10_prefixo_curto
      { ncm_lista := ["22030000"], keywords := [], ncm_detalhes := []
        base_legal_meta := none, aprendizado := none, cache_ia := [] } ". .").2
     (by decide)⟩

/-- C5: store/lookup round-trip with last-write-wins.  After
`salvar_aprendizado_ia` stores a first verdict for a description, a lookup
of the same description returns exactly that verdict's fields; after a
second store under the same normalized key the lookup returns only the
second verdict's fields, and the cache state equals a single store of the
second verdict — the first entry is replaced, with no versioning. -/
theorem c5_upsert_sobrescreve (db : NCMDatabase) (d : String)
    (m1 m2 : Bool) (n1 mo1 t1 n2 mo2 t2 : String) (ok1 ok2 : Bool) :
    buscar_cache_ia (salvar_aprendizado_ia db d m1 n1 mo1 t1 ok1).2 d =
      some { is_monofasico := m1, ncm_sugerido := n1, motivo := mo1,
             data_aprendizado := t1, fonte := "cache_ia" } ∧
    buscar_cache_ia
        (salvar_aprendizado_ia (salvar_aprendizado_ia db d m1 n1 mo1 t1 ok1).2
          d m2 n2 mo2 t2 ok2).2 d =
      some { is_monofasico := m2, ncm_sugerido := n2, motivo := mo2,
             data_aprendizado := t2, fonte := "cache_ia" } ∧
    ((salvar_aprendizado_ia (salvar_aprendizado_ia db d m1 n1 mo1 t1 ok1).2
        d m2 n2 mo2 t2 ok2).2).cache_ia =
      ((salvar_aprendizado_ia db d m2 n2 mo2 t2 ok2).2).cache_ia := by
  refine ⟨buscar_apos_salvar db d m1 n1 mo1 t1 ok1,
    buscar_apos_salvar _ d m2 n2 mo2 t2 ok2, ?_⟩
  rw [salvar_cache, salvar_cache, salvar_cache, dictSet_absorve]

/-- C7: a persistence failure inside the cache store is silent and cannot
reach classification.  `salvar_aprendizado_ia` returns `False` instead of
raising when the file write fails, leaves the in-memory state exactly as in
the successful case, and `main.analyze_item` (which discards the returned
flag) produces identical output — finding, database state, tally and model
calls — whether or not the write succeeds. -/
theorem c7_falha_gravacao_silenciosa (db : NCMDatabase) (nome : String) (mono : Bool)
    (ncm mot agora : String) (item : Item) (ncm_db : NCMDatabase)
    (ia_auditor : Option IAConsulta) (stats : Stats) :
    (salvar_aprendizado_ia db nome mono ncm mot agora false).1 = false ∧
    (salvar_aprendizado_ia db nome mono ncm mot agora false).2 =
      (salvar_aprendizado_ia db nome mono ncm mot agora true).2 ∧
    analyze_item item ncm_db ia_auditor false agora stats =
      analyze_item item ncm_db ia_auditor true agora stats := by
  refine ⟨rfl, rfl, ?_⟩
  unfold analyze_item
  cases ia_auditor with
  | none => rfl
  | some consulta => rfl

/-- C1 counterexample: the claim quantifies over every code present in the
loaded registry code list, but a registered code that is not already in
normalized form defeats both the exact match (which compares the normalized
query against the raw list entries) and the 4-digit-prefix fallback.  With
the list entry `"22.03.00.00"`, classifying that very code yields a
not-special verdict with empty source tier instead of the claimed
registry-tier special verdict. -/
theorem c1_contraexemplo :
    ("22.03.00.00" ∈
      ({ ncm_lista := ["22.03.00.00"], keywords := [], ncm_detalhes := []
         base_legal_meta := none, aprendizado := none, cache_ia := [] } :
        NCMDatabase).ncm_lista) ∧
    (verificar_item
        { ncm_lista := ["22.03.00.00"], keywords := [], ncm_detalhes := []
          base_legal_meta := none, aprendizado := none, cache_ia := [] }
        "22.03.00.00" "CERVEJA").1.is_monofasico = false ∧
    (verificar_item
        { ncm_lista := ["22.03.00.00"], keywords := [], ncm_detalhes := []
          base_legal_meta := none, aprendizado := none, cache_ia := [] }
        "22.03.00.00" "CERVEJA").1.fonte = "" := by
  decide

/-- C1 (amended): for every code whose *normalized* form is present in the
loaded registry code list and every description, `verificar_item` returns a
special-tax verdict from the registry tier (`fonte = "banco_dados"`) whose
correct code is the normalized current code, with the current code judged
correct. -/
theorem c1_registro_especial (db : NCMDatabase) (ncm nome : String)
    (h : normCode ncm ∈ db.ncm_lista) :
    (verificar_item db ncm nome).1.is_monofasico = true ∧
    (verificar_item db ncm nome).1.fonte = "banco_dados" ∧
    (verificar_item db ncm nome).1.ncm_correto = normCode ncm ∧
    (verificar_item db ncm nome).1.ncm_atual_correto = true := by
  have hmono : is_monofasico db (normCode ncm) = true := by
    simp only [is_monofasico]
    rw [normCode_idem]
    simp [h]
  rw [verificar_banco_eq db ncm nome hmono]
  exact ⟨rfl, rfl, rfl, rfl⟩

/-- C1 witness: a dotted query whose normalization `"22030000"` is
registered is classified by the registry tier. -/
theorem c1_registro_especial_witness :
    (normCode "2203.00.00" ∈
      ({ ncm_lista := ["22030000"], keywords := [], ncm_detalhes := []
         base_legal_meta := none, aprendizado := none, cache_ia := [] } :
        NCMDatabase).ncm_lista) ∧
    ((verificar_item
        { ncm_lista := ["22030000"], keywords := [], ncm_detalhes := []
          base_legal_meta := none, aprendizado := none, cache_ia := [] }
        "2203.00.00" "AGUA MINERAL").1.is_monofasico = true ∧
     (verificar_item
        { ncm_lista := ["22030000"], keywords := [], ncm_detalhes := []
          base_legal_meta := none, aprendizado := none, cache_ia := [] }
        "2203.00.00" "AGUA MINERAL").1.fonte = "banco_dados" ∧
     (verificar_item
        { ncm_lista := ["22030000"], keywords := [], ncm_detalhes := []
          base_legal_meta := none, aprendizado := none, cache_ia := [] }
        "2203.00.00" "AGUA MINERAL").1.ncm_correto = normCode "2203.00.00" ∧
     (verificar_item
        { ncm_lista := ["22030000"], keywords := [], ncm_detalhes := []
          base_legal_meta := none, aprendizado := none, cache_ia := [] }
        "2203.00.00" "AGUA MINERAL").1.ncm_atual_correto = true) :=
  ⟨by decide,
   c1_registro_especial
     { ncm_lista := ["22030000"], keywords := [], ncm_detalhes := []
       base_legal_meta := none, aprendizado := none, cache_ia := [] }
     "2203.00.00" "AGUA MINERAL" (by decide)⟩

/-- C2 counterexample: the claim says the keyword-tier verdict's
current-code-correct flag equals the equality test between the current code
and the matched code, but `verificar_item` hard-codes the flag to `False`
in that branch.  With an empty registry and the keyword `"CERVEJA"` mapped
to `"22030000"`, an item already carrying code `"22030000"` reaches the
keyword tier, the equality test is true, yet the flag is `False`. -/
theorem c2_contraexemplo :
    (verificar_item
        { ncm_lista := [], keywords := [("cerveja", ["CERVEJA"])], ncm_detalhes := []
          base_legal_meta := none, aprendizado := none, cache_ia := [] }
        "22030000" "CERVEJA PILSEN").1.fonte = "identificacao_nome" ∧
    normCode "22030000" =
      (verificar_item
        { ncm_lista := [], keywords := [("cerveja", ["CERVEJA"])], ncm_detalhes := []
          base_legal_meta := none, aprendizado := none, cache_ia := [] }
        "22030000" "CERVEJA PILSEN").1.ncm_correto ∧
    (verificar_item
        { ncm_lista := [], keywords := [("cerveja", ["CERVEJA"])], ncm_detalhes := []
          base_legal_meta := none, aprendizado := none, cache_ia := [] }
        "22030000" "CERVEJA PILSEN").1.ncm_atual_correto = false := by
  decide

/-- C2 (amended): whenever the registry check misses and the keyword
matcher hits, the verdict is special-tax from the keyword tier
(`fonte = "identificacao_nome"`), its correct code is the category's mapped
code, and the current-code-correct flag is unconditionally `false` — also
in the reachable case where the current code happens to equal the matched
code. -/
theorem c2_keywords_flag_falso (db : NCMDatabase) (ncm nome : String)
    (ident : Identificacao)
    (h1 : is_monofasico db (normCode ncm) = false)
    (h2 : identificar_por_nome db nome = some ident) :
    (verificar_item db ncm nome).1.is_monofasico = true ∧
    (verificar_item db ncm nome).1.fonte = "identificacao_nome" ∧
    (verificar_item db ncm nome).1.ncm_correto = ident.ncm_sugerido ∧
    (verificar_item db ncm nome).1.ncm_atual_correto = false := by
  rw [verificar_keyword_eq db ncm nome ident h1 h2]
  exact ⟨rfl, rfl, rfl, rfl⟩

/-- C2 witness: the keyword `"CERVEJA"` fires for a beer description under
an empty registry, and the keyword-tier verdict has the claimed shape. -/
theorem c2_keywords_flag_falso_witness :
    (is_monofasico
        { ncm_lista := [], keywords := [("cerveja", ["CERVEJA"])], ncm_detalhes := []
          base_legal_meta := none, aprendizado := none, cache_ia := [] }
        (normCode "99999999") = false) ∧
    (identificar_por_nome
        { ncm_lista := [], keywords := [("cerveja", ["CERVEJA"])], ncm_detalhes := []
          base_legal_meta := none, aprendizado := none, cache_ia := [] }
        "CERVEJA LATA 350ML" =
      some { categoria := "cerveja", ncm_sugerido := "22030000", descricao := ""
             confianca := "media", keyword_encontrada := "CERVEJA"
             base_legal := "Lei nº 13.097/2015" }) ∧
    ((verificar_item
        { ncm_lista := [], keywords := [("cerveja", ["CERVEJA"])], ncm_detalhes := []
          base_legal_meta := none, aprendizado := none, cache_ia := [] }
        "99999999" "CERVEJA LATA 350ML").1.is_monofasico = true ∧
     (verificar_item
        { ncm_lista := [], keywords := [("cerveja", ["CERVEJA"])], ncm_detalhes := []
          base_legal_meta := none, aprendizado := none, cache_ia := [] }
        "99999999" "CERVEJA LATA 350ML").1.fonte = "identificacao_nome" ∧
     (verificar_item
        { ncm_lista := [], keywords := [("cerveja", ["CERVEJA"])], ncm_detalhes := []
          base_legal_meta := none, aprendizado := none, cache_ia := [] }
        "99999999" "CERVEJA LATA 350ML").1.ncm_correto =
       ({ categoria := "cerveja", ncm_sugerido := "22030000", descricao := ""
          confianca := "media", keyword_encontrada := "CERVEJA"
          base_legal := "Lei nº 13.097/2015" } : Identificacao).ncm_sugerido ∧
     (verificar_item
        { ncm_lista := [], keywords := [("cerveja", ["CERVEJA"])], ncm_detalhes := []
          base_legal_meta := none, aprendizado := none, cache_ia := [] }
        "99999999" "CERVEJA LATA 350ML").1.ncm_atual_correto = false) :=
  ⟨by decide, by decide,
   c2_keywords_flag_falso
     { ncm_lista := [], keywords := [("cerveja", ["CERVEJA"])], ncm_detalhes := []
       base_legal_meta := none, aprendizado := none, cache_ia := [] }
     "99999999" "CERVEJA LATA 350ML"
     { categoria := "cerveja", ncm_sugerido := "22030000", descricao := ""
       confianca := "media", keyword_encontrada := "CERVEJA"
       base_legal := "Lei nº 13.097/2015" }
     (by decide) (by decide)⟩

/-- C3: for every item whose description has a cache entry (by exact or
flexible lookup) at classification time, the external model is invoked zero
times for that item — even when the cached verdict's special-tax flag is
false.  The registry → keywords → cache → model order makes the cache tier
terminal: the only path of `main.analyze_item` that calls the model requires
the cache lookup to have returned nothing. -/
theorem c3_cache_impede_ia (db : NCMDatabase) (item : Item)
    (ia_auditor : Option IAConsulta) (gravacao_ok : Bool) (agora : String) (stats : Stats)
    (hcache : buscar_cache_ia db item.produto ≠ none) :
    (analyze_item item db ia_auditor gravacao_ok agora stats).chamadas_ia = 0 := by
  simp only [analyze_item]
  by_cases himposto : item.imposto_total ≤ 0
  · simp [himposto]
  · rw [if_neg himposto]
    by_cases hmono : (verificar_item db item.ncm item.produto).1.is_monofasico
    · simp [hmono]
    · rw [Bool.not_eq_true] at hmono
      by_cases hfonte : (verificar_item db item.ncm item.produto).1.fonte = "cache_ia"
      · simp [hmono, hfonte]
      · exact absurd (verificar_inversao db item.ncm item.produto hmono hfonte).2.2 hcache

/-- C3 witness: a not-special cached verdict for the item's exact
description keeps the model (although configured and available) at zero
invocations. -/
theorem c3_cache_impede_ia_witness :
    (buscar_cache_ia
        { ncm_lista := [], keywords := [], ncm_detalhes := []
          base_legal_meta := none
          aprendizado := some
            { total_economizado := 0
              produtos := [("AGUA TONICA",
                { is_monofasico := false, ncm_sugerido := "22021000"
                  motivo := "Nao monofasico", data_aprendizado := "2025-12-30" })] }
          cache_ia := [("AGUA TONICA",
            { is_monofasico := false, ncm_sugerido := "22021000"
              motivo := "Nao monofasico", data_aprendizado := "2025-12-30" })] }
        "AGUA TONICA" ≠ none) ∧
    (analyze_item
        { produto := "AGUA TONICA", ncm := "99999999", imposto_total := 1
          valor_total := 5, chave_acesso := "", numero_nota := ""
          data_emissao := "", cnpj_emitente := "", nome_emitente := "" }
        { ncm_lista := [], keywords := [], ncm_detalhes := []
          base_legal_meta := none
          aprendizado := some
            { total_economizado := 0
              produtos := [("AGUA TONICA",
                { is_monofasico := false, ncm_sugerido := "22021000"
                  motivo := "Nao monofasico", data_aprendizado := "2025-12-30" })] }
          cache_ia := [("AGUA TONICA",
            { is_monofasico := false, ncm_sugerido := "22021000"
              motivo := "Nao monofasico", data_aprendizado := "2025-12-30" })] }
        (some (fun _ _ _ => Except.ok
          { is_monofasico := true, ncm_correto := "22030000", motivo := "beer" }))
        true "2025-12-31" { banco_dados := 0, keywords := 0, ia := 0, ia_economizada := 0 }
      ).chamadas_ia = 0 :=
  ⟨by decide,
   c3_cache_impede_ia
     { ncm_lista := [], keywords := [], ncm_detalhes := []
       base_legal_meta := none
       aprendizado := some
         { total_economizado := 0
           produtos := [("AGUA TONICA",
             { is_monofasico := false, ncm_sugerido := "22021000"
               motivo := "Nao monofasico", data_aprendizado := "2025-12-30" })] }
       cache_ia := [("AGUA TONICA",
         { is_monofasico := false, ncm_sugerido := "22021000"
           motivo := "Nao monofasico", data_aprendizado := "2025-12-30" })] }
     { produto := "AGUA TONICA", ncm := "99999999", imposto_total := 1
       valor_total := 5, chave_acesso := "", numero_nota := ""
       data_emissao := "", cnpj_emitente := "", nome_emitente := "" }
     (some (fun _ _ _ => Except.ok
       { is_monofasico := true, ncm_correto := "22030000", motivo := "beer" }))
     true "2025-12-31" { banco_dados := 0, keywords := 0, ia := 0, ia_economizada := 0 }
     (by decide)⟩

theorem buscar_flexivel_find (nome_upper : String) (cache : List (String × CacheEntry))
    (hnorm : ∀ par ∈ cache, pyUpper par.1 = par.1) :
    buscar_flexivel nome_upper cache =
      match cache.find? (fun par => pyIn par.1 nome_upper || pyIn nome_upper par.1) with
      | some par => some (resultado_do_cache par.2)
      | none => none := by
  induction cache with
  | nil => rfl
  | cons par resto ih =>
    obtain ⟨chave, dados⟩ := par
    have hchave : pyUpper chave = chave := hnorm ⟨chave, dados⟩ (List.mem_cons_self _ _)
    have ih' := ih (fun p hp => hnorm p (List.mem_cons_of_mem _ hp))
    by_cases h : (pyIn chave nome_upper || pyIn nome_upper chave) = true
    · simp only [buscar_flexivel, hchave, List.find?, h, if_pos h, if_true]
    · simp only [buscar_flexivel, hchave, List.find?, h, if_neg h, Bool.false_eq_true,
        if_false]
      rw [ih']

/-- C6: cache lookup order.  When every cache key is stored in normalized
(upper-case) form — which is how `salvar_aprendizado_ia` writes them —
`buscar_cache_ia` coincides with the spec-worded `lookupSpec`: normalize the
description, try the exact key match first, only on a miss scan the keys in
order for the first mutual-containment (flexible) match, and return none
when both fail; in particular an exact match always takes precedence over
any flexible match. -/
theorem c6_ordem_de_busca (db : NCMDatabase) (nome : String)
    (hnorm : ∀ par ∈ db.cache_ia, pyUpper par.1 = par.1) :
    buscar_cache_ia db nome = lookupSpec db.cache_ia nome := by
  unfold buscar_cache_ia lookupSpec
  by_cases hvazio : db.cache_ia = []
  · rw [if_pos hvazio, hvazio]
    simp [dictGet?, List.find?]
  · rw [if_neg hvazio]
    cases hexato : dictGet? (pyStrip (pyUpper nome)) db.cache_ia with
    | some dados => simp [hexato]
    | none =>
      simp only [hexato]
      exact buscar_flexivel_find (pyStrip (pyUpper nome)) db.cache_ia hnorm

/-- C6 witness: on a one-entry cache with normalized key the lookup agrees
with the spec-worded lookup; the instance exercises the flexible branch
(learned key `"CASAL GARCIA"` inside a longer description). -/
theorem c6_ordem_de_busca_witness :
    (∀ par ∈
      ({ ncm_lista := [], keywords := [], ncm_detalhes := []
         base_legal_meta := none, aprendizado := none
         cache_ia := [("CASAL GARCIA",
           { is_monofasico := false, ncm_sugerido := "22042100"
             motivo := "Vinho", data_aprendizado := "2025-12-30" })] } :
        NCMDatabase).cache_ia, pyUpper par.1 = par.1) ∧
    buscar_cache_ia
        { ncm_lista := [], keywords := [], ncm_detalhes := []
          base_legal_meta := none, aprendizado := none
          cache_ia := [("CASAL GARCIA",
            { is_monofasico := false, ncm_sugerido := "22042100"
              motivo := "Vinho", data_aprendizado := "2025-12-30" })] }
        "VH BCO POR CASAL GARCIA SWEET 750ML" =
      lookupSpec
        [("CASAL GARCIA",
          { is_monofasico := false, ncm_sugerido := "22042100"
            motivo := "Vinho", data_aprendizado := "2025-12-30" })]
        "VH BCO POR CASAL GARCIA SWEET 750ML" :=
  ⟨by decide,
   c6_ordem_de_busca
     { ncm_lista := [], keywords := [], ncm_detalhes := []
       base_legal_meta := none, aprendizado := none
       cache_ia := [("CASAL GARCIA",
         { is_monofasico := false, ncm_sugerido := "22042100"
           motivo := "Vinho", data_aprendizado := "2025-12-30" })] }
     "VH BCO POR CASAL GARCIA SWEET 750ML" (by decide)⟩

theorem append_singleton_inj {x y : List Char} {c d : Char}
    (h : x ++ [c] = y ++ [d]) : x = y ∧ c = d := by
  have h' := congrArg List.reverse h
  simp only [List.reverse_append, List.reverse_cons, List.reverse_nil, List.nil_append,
    List.singleton_append, List.cons.injEq] at h'
  exact ⟨List.reverse_injective h'.2, h'.1⟩

theorem padded_infix_iff (u k : List Char) :
    ((' ' :: k) ++ [' ']) <:+: ((' ' :: u) ++ [' ']) ↔
      ∃ a b : List Char, u = a ++ k ++ b ∧
        (a = [] ∨ a.getLast? = some ' ') ∧ (b = [] ∨ b.head? = some ' ') := by
  constructor
  · rintro ⟨s, t, hst⟩
    cases s with
    | nil =>
      simp only [List.nil_append, List.cons_append, List.cons.injEq] at hst
      obtain ⟨-, hst⟩ := hst
      rcases List.eq_nil_or_concat t with rfl | ⟨t', c, rfl⟩
      · have hst' : k ++ [' '] = u ++ [' '] := by simpa using hst
        obtain ⟨h1, -⟩ := append_singleton_inj hst'
        exact ⟨[], [], by simp [h1], Or.inl rfl, Or.inl rfl⟩
      · have hst' : (k ++ ' ' :: t') ++ [c] = u ++ [' '] := by
          simpa [List.concat_eq_append] using hst
        obtain ⟨h1, -⟩ := append_singleton_inj hst'
        exact ⟨[], ' ' :: t', by simp [← h1], Or.inl rfl, Or.inr rfl⟩
    | cons c s' =>
      simp only [List.cons_append, List.cons.injEq] at hst
      obtain ⟨rfl, hst⟩ := hst
      rcases List.eq_nil_or_concat t with rfl | ⟨t', c₂, rfl⟩
      · have hst' : (s' ++ ' ' :: k) ++ [' '] = u ++ [' '] := by
          simpa [List.append_assoc] using hst
        obtain ⟨h1, -⟩ := append_singleton_inj hst'
        refine ⟨s' ++ [' '], [], by simp [← h1], Or.inr ?_, Or.inl rfl⟩
        simp
      · have hst' : (s' ++ ' ' :: k ++ ' ' :: t') ++ [c₂] = u ++ [' '] := by
          simpa [List.concat_eq_append, List.append_assoc] using hst
        obtain ⟨h1, -⟩ := append_singleton_inj hst'
        refine ⟨s' ++ [' '], ' ' :: t', by simp [← h1], Or.inr ?_, Or.inr rfl⟩
        simp
  · rintro ⟨a, b, rfl, ha, hb⟩
    rcases ha with rfl | ha
    · rcases hb with rfl | hb
      · exact ⟨[], [], by simp⟩
      · cases b with
        | nil => exact ⟨[], [], by simp⟩
        | cons b0 b' =>
          have hb0 : b0 = ' ' := by simpa using hb
          subst hb0
          exact ⟨[], b' ++ [' '], by simp⟩
    · rcases List.eq_nil_or_concat a with rfl | ⟨a', c, rfl⟩
      · simp at ha
      · have hc : c = ' ' := by simpa [List.getLast?_concat] using ha
        subst hc
        rcases hb with rfl | hb
        · exact ⟨' ' :: a', [], by simp [List.concat_eq_append]⟩
        · cases b with
          | nil => exact ⟨' ' :: a', [], by simp [List.concat_eq_append]⟩
          | cons b0 b' =>
            have hb0 : b0 = ' ' := by simpa using hb
            subst hb0
            exact ⟨' ' :: a', b' ++ [' '], by simp [List.concat_eq_append]⟩

/-- C8: whole-word matching.  For every fragment in the whole-word set
(`CHA`, `CHÁ`, `ALE`, `ZERO`) the matcher pads both the (uppercased)
description and the fragment with boundary spaces before the containment
check, so the fragment matches exactly when it occurs space-bounded — at
the start or after a space, and at the end or before a space — and never
when it occurs only inside a larger token.  Concretely, with `CHA`
configured for the `cha_pronto` category, `identificar_por_nome` rejects
`"CHANDON BRUT 750ML"` (where `CHA` is only a prefix of `CHANDON`) and
accepts `"CHA GELADO LIMAO"` (isolated word). -/
theorem c8_palavra_inteira (kw nome : String)
    (hk : kw ∈ keywords_palavra_completa) :
    (keyword_hit (pyUpper nome) kw = true ↔
      ∃ a b : List Char, (pyUpper nome).data = a ++ kw.data ++ b ∧
        (a = [] ∨ a.getLast? = some ' ') ∧ (b = [] ∨ b.head? = some ' ')) ∧
    identificar_por_nome
      { ncm_lista := [], keywords := [("cha_pronto", ["CHA"])], ncm_detalhes := []
        base_legal_meta := none, aprendizado := none, cache_ia := [] }
      "CHANDON BRUT 750ML" = none ∧
    identificar_por_nome
      { ncm_lista := [], keywords := [("cha_pronto", ["CHA"])], ncm_detalhes := []
        base_legal_meta := none, aprendizado := none, cache_ia := [] }
      "CHA GELADO LIMAO" =
      some { categoria := "cha_pronto", ncm_sugerido := "22029900", descricao := ""
             confianca := "baixa", keyword_encontrada := "CHA"
             base_legal := "Lei nº 13.097/2015" } := by
  refine ⟨?_, by decide, by decide⟩
  unfold keyword_hit
  rw [if_pos hk]
  unfold pyIn
  rw [decide_eq_true_eq]
  have h1 : (" " ++ kw ++ " ").data = (' ' :: kw.data) ++ [' '] := rfl
  have h2 : (" " ++ pyUpper nome ++ " ").data = (' ' :: (pyUpper nome).data) ++ [' '] := rfl
  rw [h1, h2]
  exact padded_infix_iff (pyUpper nome).data kw.data

/-- C8 witness: for the whole-word fragment `CHA` and the description
`"cha gelado"`, the matcher's padded test is equivalent to a space-bounded
occurrence in the uppercased description. -/
theorem c8_palavra_inteira_witness :
    ("CHA" ∈ keywords_palavra_completa) ∧
    (keyword_hit (pyUpper "cha gelado") "CHA" = true ↔
      ∃ a b : List Char, (pyUpper "cha gelado").data = a ++ ("CHA" : String).data ++ b ∧
        (a = [] ∨ a.getLast? = some ' ') ∧ (b = [] ∨ b.head? = some ' ')) :=
  ⟨by decide, (c8_palavra_inteira "CHA" "cha gelado" (by decide)).1⟩

theorem process_itens_append (ia_auditor : Option IAConsulta) (gravacao_ok : Bool)
    (agora : String) (xs ys : List Item) (db : NCMDatabase) (stats : Stats) :
    process_itens ia_auditor gravacao_ok agora (xs ++ ys) db stats =
      { erros_encontrados :=
          (process_itens ia_auditor gravacao_ok agora xs db stats).erros_encontrados ++
          (process_itens ia_auditor gravacao_ok agora ys
            (process_itens ia_auditor gravacao_ok agora xs db stats).db
            (process_itens ia_auditor gravacao_ok agora xs db stats).stats).erros_encontrados
        db := (process_itens ia_auditor gravacao_ok agora ys
            (process_itens ia_auditor gravacao_ok agora xs db stats).db
            (process_itens ia_auditor gravacao_ok agora xs db stats).stats).db
        stats := (process_itens ia_auditor gravacao_ok agora ys
            (process_itens ia_auditor gravacao_ok agora xs db stats).db
            (process_itens ia_auditor gravacao_ok agora xs db stats).stats).stats
        chamadas_ia :=
          (process_itens ia_auditor gravacao_ok agora xs db stats).chamadas_ia +
          (process_itens ia_auditor gravacao_ok agora ys
            (process_itens ia_auditor gravacao_ok agora xs db stats).db
            (process_itens ia_auditor gravacao_ok agora xs db stats).stats).chamadas_ia } := by
  induction xs generalizing db stats with
  | nil => simp [process_itens]
  | cons item resto ih =>
    simp only [List.cons_append, process_itens, ih]
    cases (analyze_item item db ia_auditor gravacao_ok agora stats).erro with
    | none => simp [ih, Nat.add_assoc]
    | some erro => simp [ih, Nat.add_assoc]

/-- C9: model-failure containment.  (a) A raising model call is converted
by the agent's `try/except` into a safe non-special verdict with the
current code unchanged and the diagnostic reason `"Erro na API: …"`.
(b) With the model unconfigured (`ia_auditor = None`) the item makes zero
model calls and, when all local tiers missed, resolves to no finding.
(c) With a raising model the item resolves to no finding ("not
recoverable"), exactly one (failed) model call is made, and the safe
verdict is recorded in the learned cache; no exception escapes, since the
embedding is total.  (d) The batch loop is a homomorphism over list append,
so processing always continues with the remaining items. -/
theorem c9_falha_do_modelo (db : NCMDatabase) (item : Item) (consulta : IAConsulta)
    (e : String) (gravacao_ok : Bool) (agora : String) (stats : Stats)
    (itens1 itens2 : List Item) (ia_auditor : Option IAConsulta)
    (herro : consulta item.produto item.ncm item.valor_total = Except.error e)
    (himposto : ¬ item.imposto_total ≤ 0)
    (hmono : (verificar_item db item.ncm item.produto).1.is_monofasico = false)
    (hfonte : (verificar_item db item.ncm item.produto).1.fonte ≠ "cache_ia") :
    agente_analyze_item (Except.error e) item.ncm =
      { is_monofasico := false, ncm_correto := item.ncm
        motivo := "Erro na API: " ++ strTake 30 e } ∧
    (analyze_item item db none gravacao_ok agora stats).chamadas_ia = 0 ∧
    (analyze_item item db none gravacao_ok agora stats).erro = none ∧
    (analyze_item item db (some consulta) gravacao_ok agora stats).erro = none ∧
    (analyze_item item db (some consulta) gravacao_ok agora stats).chamadas_ia = 1 ∧
    dictGet? (pyStrip (pyUpper item.produto))
        (analyze_item item db (some consulta) gravacao_ok agora stats).db.cache_ia =
      some { is_monofasico := false, ncm_sugerido := item.ncm
             motivo := "Erro na API: " ++ strTake 30 e, data_aprendizado := agora } ∧
    (process_itens ia_auditor gravacao_ok agora (itens1 ++ itens2) db stats).erros_encontrados =
      (process_itens ia_auditor gravacao_ok agora itens1 db stats).erros_encontrados ++
      (process_itens ia_auditor gravacao_ok agora itens2
        (process_itens ia_auditor gravacao_ok agora itens1 db stats).db
        (process_itens ia_auditor gravacao_ok agora itens1 db stats).stats).erros_encontrados := by
  obtain ⟨h1, h2, h3⟩ := verificar_inversao db item.ncm item.produto hmono hfonte
  have hv := verificar_perde_eq db item.ncm item.produto h1 h2 h3
  refine ⟨rfl, ?_, ?_, ?_, ?_, ?_, ?_⟩
  · simp [analyze_item, himposto, hv]
  · simp [analyze_item, himposto, hv]
  · simp [analyze_item, himposto, hv, herro, agente_analyze_item]
  · simp [analyze_item, himposto, hv, herro, agente_analyze_item]
  · simp [analyze_item, himposto, hv, herro, agente_analyze_item, salvar_cache,
      dictGet_set_same]
  · rw [process_itens_append]

/-- C9 witness: a concrete item whose model call raises `"sem rede"` yields
no finding and exactly one failed model call. -/
theorem c9_falha_do_modelo_witness :
    (¬ (({ produto := "PRODUTO X", ncm := "12345678", imposto_total := 1
           valor_total := 1, chave_acesso := "", numero_nota := ""
           data_emissao := "", cnpj_emitente := "", nome_emitente := "" } :
          Item).imposto_total ≤ 0)) ∧
    (analyze_item
        { produto := "PRODUTO X", ncm := "12345678", imposto_total := 1
          valor_total := 1, chave_acesso := "", numero_nota := ""
          data_emissao := "", cnpj_emitente := "", nome_emitente := "" }
        { ncm_lista := [], keywords := [], ncm_detalhes := []
          base_legal_meta := none, aprendizado := none, cache_ia := [] }
        (some (fun _ _ _ => Except.error "sem rede")) true "2025-12-31"
        { banco_dados := 0, keywords := 0, ia := 0, ia_economizada := 0 }).erro = none ∧
    (analyze_item
        { produto := "PRODUTO X", ncm := "12345678", imposto_total := 1
          valor_total := 1, chave_acesso := "", numero_nota := ""
          data_emissao := "", cnpj_emitente := "", nome_emitente := "" }
        { ncm_lista := [], keywords := [], ncm_detalhes := []
          base_legal_meta := none, aprendizado := none, cache_ia := [] }
        (some (fun _ _ _ => Except.error "sem rede")) true "2025-12-31"
        { banco_dados := 0, keywords := 0, ia := 0, ia_economizada := 0 }).chamadas_ia = 1 := by
  have h := c9_falha_do_modelo
    { ncm_lista := [], keywords := [], ncm_detalhes := []
      base_legal_meta := none, aprendizado := none, cache_ia := [] }
    { produto := "PRODUTO X", ncm := "12345678", imposto_total := 1
      valor_total := 1, chave_acesso := "", numero_nota := ""
      data_emissao := "", cnpj_emitente := "", nome_emitente := "" }
    (fun _ _ _ => Except.error "sem rede") "sem rede" true "2025-12-31"
    { banco_dados := 0, keywords := 0, ia := 0, ia_economizada := 0 }
    [] [] none rfl (by decide) (by decide) (by decide)
  exact ⟨by decide, h.2.2.2.1, h.2.2.2.2.1⟩

/-- C4 counterexample: the claim demands a verdict *identical* to the first
call's, but the second call is answered by the cache tier, which reports a
different source (`"Cache IA (Aprendizado)"` instead of `"Agente IA"`), a
different confidence (`alta` instead of `media`) and a rewritten reason, so
the two findings differ even though the decision and corrected code agree.
The model is indeed invoked zero additional times. -/
theorem c4_contraexemplo :
    (analyze_item
        { produto := "CERVEJA ARTESANAL", ncm := "99999999", imposto_total := 1
          valor_total := 1, chave_acesso := "", numero_nota := ""
          data_emissao := "", cnpj_emitente := "", nome_emitente := "" }
        { ncm_lista := [], keywords := [], ncm_detalhes := []
          base_legal_meta := none, aprendizado := none, cache_ia := [] }
        (some (fun _ _ _ => Except.ok
          { is_monofasico := true, ncm_correto := "22030000", motivo := "Cerveja" }))
        true "T1"
        { banco_dados := 0, keywords := 0, ia := 0, ia_economizada := 0 }).chamadas_ia = 1 ∧
    (analyze_item
        { produto := "CERVEJA ARTESANAL", ncm := "99999999", imposto_total := 1
          valor_total := 1, chave_acesso := "", numero_nota := ""
          data_emissao := "", cnpj_emitente := "", nome_emitente := "" }
        (analyze_item
          { produto := "CERVEJA ARTESANAL", ncm := "99999999", imposto_total := 1
            valor_total := 1, chave_acesso := "", numero_nota := ""
            data_emissao := "", cnpj_emitente := "", nome_emitente := "" }
          { ncm_lista := [], keywords := [], ncm_detalhes := []
            base_legal_meta := none, aprendizado := none, cache_ia := [] }
          (some (fun _ _ _ => Except.ok
            { is_monofasico := true, ncm_correto := "22030000", motivo := "Cerveja" }))
          true "T1"
          { banco_dados := 0, keywords := 0, ia := 0, ia_economizada := 0 }).db
        (some (fun _ _ _ => Except.ok
          { is_monofasico := true, ncm_correto := "22030000", motivo := "Cerveja" }))
        true "T2"
        { banco_dados := 0, keywords := 0, ia := 0, ia_economizada := 0 }).chamadas_ia = 0 ∧
    (analyze_item
        { produto := "CERVEJA ARTESANAL", ncm := "99999999", imposto_total := 1
          valor_total := 1, chave_acesso := "", numero_nota := ""
          data_emissao := "", cnpj_emitente := "", nome_emitente := "" }
        { ncm_lista := [], keywords := [], ncm_detalhes := []
          base_legal_meta := none, aprendizado := none, cache_ia := [] }
        (some (fun _ _ _ => Except.ok
          { is_monofasico := true, ncm_correto := "22030000", motivo := "Cerveja" }))
        true "T1"
        { banco_dados := 0, keywords := 0, ia := 0, ia_economizada := 0 }).erro ≠
    (analyze_item
        { produto := "CERVEJA ARTESANAL", ncm := "99999999", imposto_total := 1
          valor_total := 1, chave_acesso := "", numero_nota := ""
          data_emissao := "", cnpj_emitente := "", nome_emitente := "" }
        (analyze_item
          { produto := "CERVEJA ARTESANAL", ncm := "99999999", imposto_total := 1
            valor_total := 1, chave_acesso := "", numero_nota := ""
            data_emissao := "", cnpj_emitente := "", nome_emitente := "" }
          { ncm_lista := [], keywords := [], ncm_detalhes := []
            base_legal_meta := none, aprendizado := none, cache_ia := [] }
          (some (fun _ _ _ => Except.ok
            { is_monofasico := true, ncm_correto := "22030000", motivo := "Cerveja" }))
          true "T1"
          { banco_dados := 0, keywords := 0, ia := 0, ia_economizada := 0 }).db
        (some (fun _ _ _ => Except.ok
          { is_monofasico := true, ncm_correto := "22030000", motivo := "Cerveja" }))
        true "T2"
        { banco_dados := 0, keywords := 0, ia := 0, ia_economizada := 0 }).erro := by
  decide

/-- C4 (amended): after a first classify on an unregistered code whose
description missed every local tier queried the model once and cached the
verdict, a second classify with the same inputs makes zero additional model
calls (the cache tier intercepts) and agrees with the first call on the
special-tax outcome, the corrected code and the recoverable amount; the
verdicts are however not identical — the source changes from `"Agente IA"`
to `"Cache IA (Aprendizado)"` and the confidence from `media` to `alta`. -/
theorem c4_idempotencia_via_cache (db : NCMDatabase) (item : Item)
    (consulta : IAConsulta) (resposta : IAResposta) (ok1 ok2 : Bool)
    (t1 t2 : String) (st1 st2 : Stats)
    (hresp : consulta item.produto item.ncm item.valor_total = Except.ok resposta)
    (himposto : ¬ item.imposto_total ≤ 0)
    (h1 : is_monofasico db (normCode item.ncm) = false)
    (h2 : identificar_por_nome db item.produto = none)
    (h3 : buscar_cache_ia db item.produto = none) :
    (analyze_item item db (some consulta) ok1 t1 st1).chamadas_ia = 1 ∧
    (analyze_item item (analyze_item item db (some consulta) ok1 t1 st1).db
        (some consulta) ok2 t2 st2).chamadas_ia = 0 ∧
    (resposta.is_monofasico = true →
      ∃ e1 e2 : Erro,
        (analyze_item item db (some consulta) ok1 t1 st1).erro = some e1 ∧
        (analyze_item item (analyze_item item db (some consulta) ok1 t1 st1).db
            (some consulta) ok2 t2 st2).erro = some e2 ∧
        e2.ncm_correto = e1.ncm_correto ∧
        e2.imposto_recuperavel = e1.imposto_recuperavel ∧
        e1.origem_analise = "Agente IA" ∧ e1.confianca = "media" ∧
        e2.origem_analise = "Cache IA (Aprendizado)" ∧ e2.confianca = "alta") ∧
    (resposta.is_monofasico = false →
      (analyze_item item db (some consulta) ok1 t1 st1).erro = none ∧
      (analyze_item item (analyze_item item db (some consulta) ok1 t1 st1).db
          (some consulta) ok2 t2 st2).erro = none) := by
  have hv := verificar_perde_eq db item.ncm item.produto h1 h2 h3
  have hdb1 : (analyze_item item db (some consulta) ok1 t1 st1).db =
      (salvar_aprendizado_ia db item.produto resposta.is_monofasico
        resposta.ncm_correto resposta.motivo t1 ok1).2 := by
    cases hm : resposta.is_monofasico <;>
      simp [analyze_item, himposto, hv, hresp, agente_analyze_item, hm]
  have h1' : is_monofasico
      ((salvar_aprendizado_ia db item.produto resposta.is_monofasico
        resposta.ncm_correto resposta.motivo t1 ok1).2) (normCode item.ncm) = false := by
    rw [is_monofasico_congr _ db
      (salvar_preserva_lista db item.produto resposta.is_monofasico
        resposta.ncm_correto resposta.motivo t1 ok1)]
    exact h1
  have h2' : identificar_por_nome
      ((salvar_aprendizado_ia db item.produto resposta.is_monofasico
        resposta.ncm_correto resposta.motivo t1 ok1).2) item.produto = none := by
    rw [identificar_congr _ db
      (salvar_preserva_keywords db item.produto resposta.is_monofasico
        resposta.ncm_correto resposta.motivo t1 ok1)
      (salvar_preserva_detalhes db item.produto resposta.is_monofasico
        resposta.ncm_correto resposta.motivo t1 ok1)
      (salvar_preserva_base_legal db item.produto resposta.is_monofasico
        resposta.ncm_correto resposta.motivo t1 ok1)]
    exact h2
  have h3' := buscar_apos_salvar db item.produto resposta.is_monofasico
    resposta.ncm_correto resposta.motivo t1 ok1
  have hv2 := verificar_cache_eq
    ((salvar_aprendizado_ia db item.produto resposta.is_monofasico
      resposta.ncm_correto resposta.motivo t1 ok1).2) item.ncm item.produto
    { is_monofasico := resposta.is_monofasico, ncm_sugerido := resposta.ncm_correto
      motivo := resposta.motivo, data_aprendizado := t1, fonte := "cache_ia" }
    h1' h2' h3'
  refine ⟨?_, ?_, ?_, ?_⟩
  · cases hm : resposta.is_monofasico <;>
      simp [analyze_item, himposto, hv, hresp, agente_analyze_item, hm]
  · rw [hdb1]
    cases hm : resposta.is_monofasico
    all_goals
      rw [hm] at hv2
      simp [analyze_item, himposto, hv2, hm]
  · intro hm
    refine ⟨{ chave_acesso := item.chave_acesso, numero_nota := item.numero_nota
              data_emissao := item.data_emissao, cnpj_emitente := item.cnpj_emitente
              nome_emitente := item.nome_emitente, produto := item.produto
              ncm := item.ncm, ncm_correto := resposta.ncm_correto
              imposto_recuperavel := item.imposto_total, motivo := resposta.motivo
              origem_analise := "Agente IA"
              base_legal := get_base_legal
                ((salvar_aprendizado_ia db item.produto resposta.is_monofasico
                  resposta.ncm_correto resposta.motivo t1 ok1).2)
              confianca := "media" },
            { chave_acesso := item.chave_acesso, numero_nota := item.numero_nota
              data_emissao := item.data_emissao, cnpj_emitente := item.cnpj_emitente
              nome_emitente := item.nome_emitente, produto := item.produto
              ncm := item.ncm, ncm_correto := resposta.ncm_correto
              imposto_recuperavel := item.imposto_total
              motivo := "Produto identificado por aprendizado anterior - " ++ resposta.motivo
              origem_analise := "Cache IA (Aprendizado)"
              base_legal := get_base_legal
                ((salvar_aprendizado_ia db item.produto resposta.is_monofasico
                  resposta.ncm_correto resposta.motivo t1 ok1).2)
              confianca := "alta" }, ?_, ?_, rfl, rfl, rfl, rfl, rfl, rfl⟩
    · simp [analyze_item, himposto, hv, hresp, agente_analyze_item, hm]
    · rw [hdb1]
      rw [hm] at hv2
      simp [analyze_item, himposto, hv2, hm]
  · intro hm
    constructor
    · simp [analyze_item, himposto, hv, hresp, agente_analyze_item, hm]
    · rw [hdb1]
      rw [hm] at hv2
      simp [analyze_item, himposto, hv2, hm]

/-- C4 witness: concrete first/second classify of the same item — one model
call on the first, zero on the second. -/
theorem c4_idempotencia_via_cache_witness :
    (is_monofasico
        { ncm_lista := [], keywords := [], ncm_detalhes := []
          base_legal_meta := none, aprendizado := none, cache_ia := [] }
        (normCode "99999999") = false) ∧
    (analyze_item
        { produto := "CERVEJA ARTESANAL", ncm := "99999999", imposto_total := 1
          valor_total := 1, chave_acesso := "", numero_nota := ""
          data_emissao := "", cnpj_emitente := "", nome_emitente := "" }
        { ncm_lista := [], keywords := [], ncm_detalhes := []
          base_legal_meta := none, aprendizado := none, cache_ia := [] }
        (some (fun _ _ _ => Except.ok
          { is_monofasico := true, ncm_correto := "22030000", motivo := "Cerveja" }))
        true "T1"
        { banco_dados := 0, keywords := 0, ia := 0, ia_economizada := 0 }).chamadas_ia = 1 ∧
    (analyze_item
        { produto := "CERVEJA ARTESANAL", ncm := "99999999", imposto_total := 1
          valor_total := 1, chave_acesso := "", numero_nota := ""
          data_emissao := "", cnpj_emitente := "", nome_emitente := "" }
        (analyze_item
          { produto := "CERVEJA ARTESANAL", ncm := "99999999", imposto_total := 1
            valor_total := 1, chave_acesso := "", numero_nota := ""
            data_emissao := "", cnpj_emitente := "", nome_emitente := "" }
          { ncm_lista := [], keywords := [], ncm_detalhes := []
            base_legal_meta := none, aprendizado := none, cache_ia := [] }
          (some (fun _ _ _ => Except.ok
            { is_monofasico := true, ncm_correto := "22030000", motivo := "Cerveja" }))
          true "T1"
          { banco_dados := 0, keywords := 0, ia := 0, ia_economizada := 0 }).db
        (some (fun _ _ _ => Except.ok
          { is_monofasico := true, ncm_correto := "22030000", motivo := "Cerveja" }))
        true "T2"
        { banco_dados := 0, keywords := 0, ia := 0, ia_economizada := 0 }).chamadas_ia = 0 := by
  have h := c4_idempotencia_via_cache
    { ncm_lista := [], keywords := [], ncm_detalhes := []
      base_legal_meta := none, aprendizado := none, cache_ia := [] }
    { produto := "CERVEJA ARTESANAL", ncm := "99999999", imposto_total := 1
      valor_total := 1, chave_acesso := "", numero_nota := ""
      data_emissao := "", cnpj_emitente := "", nome_emitente := "" }
    (fun _ _ _ => Except.ok
      { is_monofasico := true, ncm_correto := "22030000", motivo := "Cerveja" })
    { is_monofasico := true, ncm_correto := "22030000", motivo := "Cerveja" }
    true true "T1" "T2"
    { banco_dados := 0, keywords := 0, ia := 0, ia_economizada := 0 }
    { banco_dados := 0, keywords := 0, ia := 0, ia_economizada := 0 }
    rfl (by decide) (by decide) (by decide) (by decide)
  exact ⟨by decide, h.1, h.2.1⟩

/-- C9 counterexample: in the unconfigured case (`ia_auditor = None`) the
item does not resolve to a verdict carrying a diagnostic reason — the
pipeline returns no finding for it, and the only per-item verdict built
(`verificar_item`'s fall-through result) is non-special with an *empty*
reason/description field, while the current code is kept only in
normalized form. -/
theorem c9_contraexemplo :
    (analyze_item
        { produto := "PRODUTO X", ncm := "12345678", imposto_total := 1
          valor_total := 1, chave_acesso := "", numero_nota := ""
          data_emissao := "", cnpj_emitente := "", nome_emitente := "" }
        { ncm_lista := [], keywords := [], ncm_detalhes := []
          base_legal_meta := none, aprendizado := none, cache_ia := [] }
        none true "2025-12-31"
        { banco_dados := 0, keywords := 0, ia := 0, ia_economizada := 0 }).erro = none ∧
    (verificar_item
        { ncm_lista := [], keywords := [], ncm_detalhes := []
          base_legal_meta := none, aprendizado := none, cache_ia := [] }
        "12345678" "PRODUTO X").1.is_monofasico = false ∧
    (verificar_item
        { ncm_lista := [], keywords := [], ncm_detalhes := []
          base_legal_meta := none, aprendizado := none, cache_ia := [] }
        "12345678" "PRODUTO X").1.descricao = "" := by
  decide
